import Mathlib

/-!
Verification of the RelGCN model definition code (`chainer_chemistry/models/relgcn.py`)
and of the NFP preprocessor behaviour pinned by its unit tests
(`tests/dataset_tests/preprocessors_tests/test_nfp_preprocessor.py`).

Tensors of a fixed shape are shallowly embedded as `Fin`-indexed functions, so the
shape bookkeeping of the Python code (reshape / transpose / batched matmul /
broadcast) becomes explicit index arithmetic.  Learned submodules (`GraphLinear`,
`EmbedAtomID`) that live outside the two source files are treated as abstract
function parameters, exactly as the specification treats them.
-/

/-- Rank-2 tensor of shape `(mb, n)`, as in numpy/chainer, entries of type `α`. -/
abbrev Tensor2 (mb n : ℕ) (α : Type) := Fin mb → Fin n → α

/-- Rank-3 tensor of shape `(mb, n, ch)`. -/
abbrev Tensor3 (mb n ch : ℕ) (α : Type) := Fin mb → Fin n → Fin ch → α

/-- Rank-4 tensor of shape `(mb, t, n, m)`. -/
abbrev Tensor4 (mb t n m : ℕ) (α : Type) := Fin mb → Fin t → Fin n → Fin m → α

/-- Embedding of `functions.sum(adj, axis=(1, 2))` for `adj` of shape
`(mb, E, n, n)`: the per-batch, per-target-node neighbour count used by
`rescale_adj`. -/
def num_neighbors {α : Type} [AddCommMonoid α] {mb E n : ℕ}
    (adj : Tensor4 mb E n n α) : Tensor2 mb n α :=
  fun b j => ∑ e, ∑ i, adj b e i j

/-- Embedding of `functions.where(cond, num_neighbors, base)` in `rescale_adj`,
where `cond = (num_neighbors.data != 0)` and `base` is an all-ones array: the
guarded divisor. -/
def guarded_neighbors {α : Type} [AddCommMonoid α] [One α] [DecidableEq α]
    {mb E n : ℕ} (adj : Tensor4 mb E n n α) : Tensor2 mb n α :=
  fun b j => if num_neighbors adj b j ≠ 0 then num_neighbors adj b j else 1

/-- Embedding of `rescale_adj(adj)`: multiply `adj` by the reciprocal of the
guarded neighbour count, broadcast as `num_neighbors_inv[:, None, None, :]`
over axes 1 and 2. -/
def rescale_adj {α : Type} [Field α] [DecidableEq α] {mb E n : ℕ}
    (adj : Tensor4 mb E n n α) : Tensor4 mb E n n α :=
  fun b e i j => adj b e i j * (1 / guarded_neighbors adj b j)

/-- Arithmetic fact used by the row-major reshape: splitting the flat index. -/
lemma mul_add_lt_of_lt {c C r T : ℕ} (hc : c < C) (hr : r < T) :
    c * T + r < C * T := by
  calc c * T + r < c * T + T := by omega
    _ = (c + 1) * T := by ring
    _ ≤ C * T := Nat.mul_le_mul_right T hc

/-- Embedding of the row-major `functions.reshape(m, (mb, node, out_ch, num_edge_type))`
applied to a tensor of shape `(mb, node, out_ch * num_edge_type)`: entry
`(b, j, c, r)` of the result is entry `(b, j, c * num_edge_type + r)` of the input. -/
def reshape_split {α : Type} {mb n och net : ℕ}
    (m : Tensor3 mb n (och * net) α) : Fin mb → Fin n → Fin och → Fin net → α :=
  fun b j c r => m b j ⟨c.1 * net + r.1, mul_add_lt_of_lt c.2 r.2⟩

/-- Embedding of `functions.transpose(m, (0, 3, 1, 2))` on a tensor of shape
`(mb, n, och, net)`, producing shape `(mb, net, n, och)`. -/
def transpose_0312 {α : Type} {mb n och net : ℕ}
    (m : Fin mb → Fin n → Fin och → Fin net → α) :
    Fin mb → Fin net → Fin n → Fin och → α :=
  fun b r j c => m b j c r

/-- Embedding of the batched `functions.matmul(adj, m)` with `adj` of shape
`(mb, net, n, n)` and `m` of shape `(mb, net, n, och)`: an ordinary matrix
product on the last two axes for every batch and edge-type index. -/
def batch_matmul {α : Type} [NonUnitalNonAssocSemiring α] {mb net n och : ℕ}
    (adj : Tensor4 mb net n n α) (m : Tensor4 mb net n och α) :
    Tensor4 mb net n och α :=
  fun b r i c => ∑ j, adj b r i j * m b r j c

/-- Embedding of `functions.sum(hr, axis=1)` on a tensor of shape
`(mb, net, n, och)`, producing shape `(mb, n, och)`. -/
def sum_axis1 {α : Type} [AddCommMonoid α] {mb net n och : ℕ}
    (x : Tensor4 mb net n och α) : Tensor3 mb n och α :=
  fun b i c => ∑ r, x b r i c

/-- Embedding of `RelGCNUpdate.__call__(h, adj)`.  The learned submodules
`graph_linear_self : (mb, n, in_ch) -> (mb, n, out_ch)` and
`graph_linear_edge : (mb, n, in_ch) -> (mb, n, out_ch * num_edge_type)` are
abstract parameters.  The body follows the source line by line: apply the self
linear layer, apply the edge linear layer, reshape to
`(mb, node, out_ch, num_edge_type)`, transpose to `(mb, edge_type, node, ch)`,
batch-multiply with `adj`, sum over the edge-type axis and add. -/
def RelGCNUpdate_call {α : Type} [NonUnitalNonAssocSemiring α]
    {mb n net ich och : ℕ}
    (graph_linear_self : Tensor3 mb n ich α → Tensor3 mb n och α)
    (graph_linear_edge : Tensor3 mb n ich α → Tensor3 mb n (och * net) α)
    (h : Tensor3 mb n ich α) (adj : Tensor4 mb net n n α) :
    Tensor3 mb n och α :=
  let hs := graph_linear_self h
  let m0 := graph_linear_edge h
  let m1 := reshape_split m0
  let m2 := transpose_0312 m1
  let hr := batch_matmul adj m2
  let hr1 := sum_axis1 hr
  fun b i c => hs b i c + hr1 b i c

/-- Claim C1: `RelGCNUpdate.__call__` implements the published RelGCN per-layer
update.  For every feature tensor `h : (mb, n, in_ch)` and adjacency
`adj : (mb, net, n, n)`, entry `(b, i, c)` of the result (whose type records the
claimed output shape `(mb, n, out_ch)`) equals `graph_linear_self(h)` at
`(b, i, c)` plus the sum over edge types `r` of the batched matrix product
`adj[:, r] @ m_r` at `(i, c)`, where `m_r` is the edge-type-`r` slice of
`graph_linear_edge(h)` reshaped to `(mb, n, out_ch, num_edge_type)`. -/
theorem relGCNUpdate_call_formula {α : Type} [NonUnitalNonAssocSemiring α]
    {mb n net ich och : ℕ}
    (gls : Tensor3 mb n ich α → Tensor3 mb n och α)
    (gle : Tensor3 mb n ich α → Tensor3 mb n (och * net) α)
    (h : Tensor3 mb n ich α) (adj : Tensor4 mb net n n α)
    (b : Fin mb) (i : Fin n) (c : Fin och) :
    RelGCNUpdate_call gls gle h adj b i c =
      gls h b i c + ∑ r, ∑ j, adj b r i j * reshape_split (gle h) b j c r :=
  rfl

/-- Claim C2: `rescale_adj` divides each entry `adj[b, e, i, j]` by the neighbour
count `d[b, j] = sum over e and i of adj[b, e, i, j]` when that count is nonzero,
and divides it by `1` (leaving it unchanged) when the count is zero.  The output
shape equals the input shape by the type of `rescale_adj`. -/
theorem rescale_adj_formula {α : Type} [Field α] [DecidableEq α] {mb E n : ℕ}
    (adj : Tensor4 mb E n n α) (b : Fin mb) (e : Fin E) (i j : Fin n) :
    (num_neighbors adj b j ≠ 0 →
      rescale_adj adj b e i j = adj b e i j / num_neighbors adj b j) ∧
    (num_neighbors adj b j = 0 →
      rescale_adj adj b e i j = adj b e i j) := by
  constructor <;> intro hd <;>
    simp [rescale_adj, guarded_neighbors, hd, div_eq_mul_inv, one_div]

/-- Concrete adjacency tensor of shape `(1, 1, 2, 2)` over `ℚ` used as input in
witnesses: the identity matrix, whose every column sum is `1`. -/
def demo_adj : Tensor4 1 1 2 2 ℚ :=
  fun _ _ i j => if i = j then 1 else 0

/-- Witness for C2: at the concrete input `demo_adj` the neighbour count at
`(0, 0)` is nonzero and `rescale_adj` divides entry `(0, 0, 0, 0)` by it. -/
theorem rescale_adj_formula_witness :
    num_neighbors demo_adj 0 0 ≠ 0 ∧
    rescale_adj demo_adj 0 0 0 0 = demo_adj 0 0 0 0 / num_neighbors demo_adj 0 0 := by
  have hd : num_neighbors demo_adj 0 0 = 1 := by
    simp [num_neighbors, demo_adj, Fin.sum_univ_two, Fin.sum_univ_one]
  exact ⟨by rw [hd]; norm_num,
    (rescale_adj_formula demo_adj 0 0 0 0).1 (by rw [hd]; norm_num)⟩

/-- Claim C8: `rescale_adj` never divides by zero.  The guarded divisor equals
the neighbour count where that count is nonzero and the constant `1` where it is
zero, hence is never zero; and entries whose neighbour count is zero are
multiplied by `1`, i.e. left equal to their input values. -/
theorem rescale_adj_no_div_by_zero {α : Type} [Field α] [DecidableEq α]
    {mb E n : ℕ} (adj : Tensor4 mb E n n α) (b : Fin mb) (e : Fin E)
    (i j : Fin n) :
    guarded_neighbors adj b j ≠ 0 ∧
    (num_neighbors adj b j ≠ 0 → guarded_neighbors adj b j = num_neighbors adj b j) ∧
    (num_neighbors adj b j = 0 → guarded_neighbors adj b j = 1) ∧
    (num_neighbors adj b j = 0 →
      rescale_adj adj b e i j = adj b e i j * 1) := by
  refine ⟨?_, fun hd => by simp [guarded_neighbors, hd],
    fun hd => by simp [guarded_neighbors, hd],
    fun hd => by simp [rescale_adj, guarded_neighbors, hd]⟩
  unfold guarded_neighbors
  split
  · assumption
  · exact one_ne_zero

/-- Concrete all-zero adjacency tensor of shape `(1, 1, 1, 1)` over `ℚ`, a
position with neighbour count zero. -/
def zero_adj : Tensor4 1 1 1 1 ℚ :=
  fun _ _ _ _ => 0

/-- Witness for C8: at the all-zero input the guarded divisor is still nonzero
and the entry is left equal to its input value. -/
theorem rescale_adj_no_div_by_zero_witness :
    guarded_neighbors zero_adj 0 0 ≠ 0 ∧
    num_neighbors zero_adj 0 0 = 0 ∧
    rescale_adj zero_adj 0 0 0 0 = zero_adj 0 0 0 0 * 1 := by
  have hd : num_neighbors zero_adj 0 0 = 0 := by
    simp [num_neighbors, zero_adj]
  exact ⟨(rescale_adj_no_div_by_zero zero_adj 0 0 0 0).1, hd,
    (rescale_adj_no_div_by_zero zero_adj 0 0 0 0).2.2.2 hd⟩

/-- Embedding of elementwise application of a scalar function to a rank-3
tensor, as chainer's elementwise `functions.sigmoid` / `functions.tanh`. -/
def map3 {α : Type} {mb n ch : ℕ} (f : α → α) (x : Tensor3 mb n ch α) :
    Tensor3 mb n ch α :=
  fun b i c => f (x b i c)

/-- Embedding of `functions.concat([h, x], axis=2)` for two rank-3 tensors with
equal leading shape `(mb, n)`: features of `h` come first, then those of `x`. -/
def concat_axis2 {α : Type} {mb n c1 c2 : ℕ}
    (h : Tensor3 mb n c1 α) (x : Tensor3 mb n c2 α) :
    Tensor3 mb n (c1 + c2) α :=
  fun b i k =>
    if hk : (k : ℕ) < c1 then h b i ⟨k, hk⟩
    else x b i ⟨(k : ℕ) - c1, by have := k.isLt; omega⟩

/-- Embedding of `RelGCNReadout.__call__(h, x=None)`: `in_feat = h`, then
`tanh(sum over nodes of sigmoid(sig_linear(in_feat)) * tanh(tanh_linear(in_feat)))`.
The learned submodules `sig_linear` and `tanh_linear` and the scalar
nonlinearities `sigmoid` and `tanhf` are abstract parameters. -/
def RelGCNReadout_call {α : Type} [NonUnitalNonAssocSemiring α]
    {mb n ich och : ℕ}
    (sig_linear tanh_linear : Tensor3 mb n ich α → Tensor3 mb n och α)
    (sigmoid tanhf : α → α) (h : Tensor3 mb n ich α) : Tensor2 mb och α :=
  let in_feat := h
  let sig_feat := map3 sigmoid (sig_linear in_feat)
  let tanh_feat := map3 tanhf (tanh_linear in_feat)
  fun b k => tanhf (∑ i, sig_feat b i k * tanh_feat b i k)

/-- Embedding of `RelGCNReadout.__call__(h, x)` with `x` present:
`in_feat = functions.concat([h, x], axis=2)`, then the same gated sum. -/
def RelGCNReadout_call_x {α : Type} [NonUnitalNonAssocSemiring α]
    {mb n c1 c2 och : ℕ}
    (sig_linear tanh_linear : Tensor3 mb n (c1 + c2) α → Tensor3 mb n och α)
    (sigmoid tanhf : α → α) (h : Tensor3 mb n c1 α) (x : Tensor3 mb n c2 α) :
    Tensor2 mb och α :=
  RelGCNReadout_call sig_linear tanh_linear sigmoid tanhf (concat_axis2 h x)

/-- Claim C3: `RelGCNReadout.__call__` is the gated readout aggregation.  With
`x = None` the input is `h` itself; with `x` present the input is the
concatenation of `h` and `x` along the feature axis.  In both cases entry
`(b, k)` of the result (of the claimed per-graph shape `(mb, out_channels)`)
is `tanh` of the sum over the node axis of
`sigmoid(sig_linear(input)) * tanh(tanh_linear(input))`. -/
theorem relGCNReadout_call_formula {α : Type} [NonUnitalNonAssocSemiring α]
    {mb n ich c1 c2 och : ℕ} :
    (∀ (sig_linear tanh_linear : Tensor3 mb n ich α → Tensor3 mb n och α)
       (sigmoid tanhf : α → α) (h : Tensor3 mb n ich α)
       (b : Fin mb) (k : Fin och),
        RelGCNReadout_call sig_linear tanh_linear sigmoid tanhf h b k =
          tanhf (∑ i, sigmoid (sig_linear h b i k) *
            tanhf (tanh_linear h b i k))) ∧
    (∀ (sig_linear tanh_linear : Tensor3 mb n (c1 + c2) α → Tensor3 mb n och α)
       (sigmoid tanhf : α → α) (h : Tensor3 mb n c1 α) (x : Tensor3 mb n c2 α)
       (b : Fin mb) (k : Fin och),
        RelGCNReadout_call_x sig_linear tanh_linear sigmoid tanhf h x b k =
          tanhf (∑ i, sigmoid (sig_linear (concat_axis2 h x) b i k) *
            tanhf (tanh_linear (concat_axis2 h x) b i k))) :=
  ⟨fun _ _ _ _ _ _ _ => rfl, fun _ _ _ _ _ _ _ _ => rfl⟩

/-- Strict upper bound for the real hyperbolic tangent. -/
lemma real_tanh_lt_one (x : ℝ) : Real.tanh x < 1 := by
  rw [Real.tanh_eq_sinh_div_cosh]
  exact (div_lt_one (Real.cosh_pos x)).mpr (Real.sinh_lt_cosh x)

/-- Strict lower bound for the real hyperbolic tangent. -/
lemma neg_one_lt_real_tanh (x : ℝ) : -1 < Real.tanh x := by
  have h := real_tanh_lt_one (-x)
  rw [Real.tanh_neg] at h
  linarith

/-- Embedding of `RelGCN.__call__(x, adj)`.  The learned submodules are abstract:
`embed` is the `EmbedAtomID`/`GraphLinear` embedding, `rgcn_convs` the list of
`RelGCNUpdate` layers (each taking hidden state and adjacency), `rgcn_readout`
the `RelGCNReadout` layer, and `tanh_elem` the elementwise `functions.tanh`
applied after every update layer.  The body mirrors the source: embed, rescale
the adjacency when `scale_adj` is true, fold the update layers each followed by
`tanh`, then read out. -/
def RelGCN_call {α : Type} [Field α] [DecidableEq α] {mb E n : ℕ}
    {X H Y : Type} (embed : X → H)
    (rgcn_convs : List (H → Tensor4 mb E n n α → H))
    (rgcn_readout : H → Y) (tanh_elem : H → H) (scale_adj : Bool)
    (x : X) (adj : Tensor4 mb E n n α) : Y :=
  let h0 := embed x
  let adj1 := if scale_adj then rescale_adj adj else adj
  let hL := rgcn_convs.foldl (fun h conv => tanh_elem (conv h adj1)) h0
  rgcn_readout hL

/-- Sequence of hidden states described by the specification of
`RelGCN.__call__`: `h_0` is the embedded input and
`h_(k+1) = tanh(rgcn_convs[k](h_k, adj1))`.  Stated from the claim's words, to
be compared with the `foldl` in `RelGCN_call`. -/
def conv_seq {H A : Type} (tanh_elem : H → H) (convs : List (H → A → H))
    (adj1 : A) (h0 : H) : ℕ → H
  | 0 => h0
  | k + 1 =>
      tanh_elem ((convs.getD k (fun h _ => h))
        (conv_seq tanh_elem convs adj1 h0 k) adj1)

/-- Peeling the first layer off the specification recurrence. -/
lemma conv_seq_cons {H A : Type} (tanh_elem : H → H) (c : H → A → H)
    (cs : List (H → A → H)) (adj1 : A) (h0 : H) (k : ℕ) :
    conv_seq tanh_elem (c :: cs) adj1 h0 (k + 1) =
      conv_seq tanh_elem cs adj1 (tanh_elem (c h0 adj1)) k := by
  induction k with
  | zero => rfl
  | succ k ih =>
      have h1 : conv_seq tanh_elem (c :: cs) adj1 h0 (k + 2) =
          tanh_elem ((c :: cs).getD (k + 1) (fun h _ => h)
            (conv_seq tanh_elem (c :: cs) adj1 h0 (k + 1)) adj1) := rfl
      have h2 : conv_seq tanh_elem cs adj1 (tanh_elem (c h0 adj1)) (k + 1) =
          tanh_elem (cs.getD k (fun h _ => h)
            (conv_seq tanh_elem cs adj1 (tanh_elem (c h0 adj1)) k) adj1) := rfl
      rw [h1, h2, ih, List.getD_cons_succ]

/-- The layer loop of `RelGCN.__call__` computes the specification recurrence. -/
lemma foldl_eq_conv_seq {H A : Type} (tanh_elem : H → H)
    (convs : List (H → A → H)) (adj1 : A) (h0 : H) :
    convs.foldl (fun h conv => tanh_elem (conv h adj1)) h0 =
      conv_seq tanh_elem convs adj1 h0 convs.length := by
  induction convs generalizing h0 with
  | nil => rfl
  | cons c cs ih => rw [List.foldl_cons, ih, List.length_cons, conv_seq_cons]

/-- Claim C4: `RelGCN.__call__` composes its submodules in a fixed order: the
output is `rgcn_readout(h_L)` where `h_0 = embed(x)`, the adjacency actually
used is `rescale_adj(adj)` exactly when `scale_adj` is true and `adj` itself
otherwise, and `h_(k+1) = tanh(rgcn_convs[k](h_k, adj1))` for each update layer
`k` in sequence, `L` being the number of update layers. -/
theorem relGCN_call_composition {α : Type} [Field α] [DecidableEq α]
    {mb E n : ℕ} {X H Y : Type} (embed : X → H)
    (rgcn_convs : List (H → Tensor4 mb E n n α → H))
    (rgcn_readout : H → Y) (tanh_elem : H → H) (scale_adj : Bool)
    (x : X) (adj : Tensor4 mb E n n α) :
    RelGCN_call embed rgcn_convs rgcn_readout tanh_elem scale_adj x adj =
      rgcn_readout (conv_seq tanh_elem rgcn_convs
        (if scale_adj then rescale_adj adj else adj) (embed x)
        rgcn_convs.length) :=
  congrArg rgcn_readout (foldl_eq_conv_seq tanh_elem rgcn_convs
    (if scale_adj then rescale_adj adj else adj) (embed x))

/-- Claim C10: every component of the graph-level representation returned by
`RelGCNReadout.__call__` over the reals, with the outer nonlinearity being the
real `tanh`, lies strictly between `-1` and `1` — and hence so does every
component of the final output of `RelGCN.__call__`, whose last operation is the
readout.  This holds for arbitrary (finite real) inputs, weights and gating
nonlinearity because the last operation applied is `tanh` of a finite sum. -/
theorem relGCNReadout_output_bounded {mb E n ich och : ℕ} :
    (∀ (sig_linear tanh_linear : Tensor3 mb n ich ℝ → Tensor3 mb n och ℝ)
       (sigmoid : ℝ → ℝ) (h : Tensor3 mb n ich ℝ) (b : Fin mb) (k : Fin och),
        -1 < RelGCNReadout_call sig_linear tanh_linear sigmoid Real.tanh h b k ∧
        RelGCNReadout_call sig_linear tanh_linear sigmoid Real.tanh h b k < 1) ∧
    (∀ (X H : Type) (embed : X → H)
       (rgcn_convs : List (H → Tensor4 mb E n n ℝ → H))
       (sig_linear tanh_linear : Tensor3 mb n ich ℝ → Tensor3 mb n och ℝ)
       (sigmoid : ℝ → ℝ) (to_feat : H → Tensor3 mb n ich ℝ)
       (tanh_elem : H → H) (scale_adj : Bool)
       (x : X) (adj : Tensor4 mb E n n ℝ) (b : Fin mb) (k : Fin och),
        -1 < RelGCN_call embed rgcn_convs
              (fun hh => RelGCNReadout_call sig_linear tanh_linear sigmoid
                Real.tanh (to_feat hh)) tanh_elem scale_adj x adj b k ∧
        RelGCN_call embed rgcn_convs
              (fun hh => RelGCNReadout_call sig_linear tanh_linear sigmoid
                Real.tanh (to_feat hh)) tanh_elem scale_adj x adj b k < 1) := by
  have key : ∀ (sig_linear tanh_linear : Tensor3 mb n ich ℝ → Tensor3 mb n och ℝ)
      (sigmoid : ℝ → ℝ) (h : Tensor3 mb n ich ℝ) (b : Fin mb) (k : Fin och),
      -1 < RelGCNReadout_call sig_linear tanh_linear sigmoid Real.tanh h b k ∧
      RelGCNReadout_call sig_linear tanh_linear sigmoid Real.tanh h b k < 1 := by
    intro sig_linear tanh_linear sigmoid h b k
    have hval : RelGCNReadout_call sig_linear tanh_linear sigmoid Real.tanh h b k =
        Real.tanh (∑ i, sigmoid (sig_linear h b i k) *
          Real.tanh (tanh_linear h b i k)) := rfl
    rw [hval]
    exact ⟨neg_one_lt_real_tanh _, real_tanh_lt_one _⟩
  refine ⟨key, ?_⟩
  intro X H embed rgcn_convs sig_linear tanh_linear sigmoid to_feat
    tanh_elem scale_adj x adj b k
  exact key sig_linear tanh_linear sigmoid
    (to_feat (List.foldl _ (embed x) rgcn_convs)) b k

/-- Embedding submodule chosen by `RelGCN.__init__` depending on `input_type`:
either `EmbedAtomID(out_size=ch_list[0], in_size=n_atom_types)` or
`GraphLinear(None, ch_list[0])`. -/
inductive EmbedSpec where
  | embedAtomID (out_size in_size : ℕ)
  | graphLinearFloat (out_size : ℕ)
deriving DecidableEq

/-- Static architecture built by `RelGCN.__init__`: the embedding submodule, the
`(in_channels, out_channels, num_edge_type)` of every `RelGCNUpdate` in
`rgcn_convs`, the `(in_channels, out_channels)` of the `RelGCNReadout`, and the
stored `input_type` and `scale_adj` attributes. -/
structure RelGCNConfig where
  embed : EmbedSpec
  rgcn_convs : List (ℕ × ℕ × ℕ)
  rgcn_readout : ℕ × ℕ
  input_type : String
  scale_adj : Bool
deriving DecidableEq

/-- Embedding of `RelGCN.__init__`.  `ch_list_opt = none` models `ch_list=None`,
replaced by `[16, 128, 64]`.  An invalid `input_type` raises `ValueError`,
modelled as `Except.error` carrying the formatted message; otherwise the
construction succeeds with the layers
`RelGCNUpdate(ch_list[i], ch_list[i+1], num_edge_type)` for
`i in range(len(ch_list)-1)` and `RelGCNReadout(ch_list[-1], out_channels)`.
In the source the default of `n_atom_types` is `MAX_ATOMIC_NUM`, a constant
from a module outside the two source files; it is a plain argument here. -/
def RelGCN_init (out_channels num_edge_type : ℕ) (ch_list_opt : Option (List ℕ))
    (n_atom_types : ℕ) (input_type : String) (scale_adj : Bool) :
    Except String RelGCNConfig :=
  let ch_list := ch_list_opt.getD [16, 128, 64]
  let mkConfig : EmbedSpec → RelGCNConfig := fun emb =>
    { embed := emb
      rgcn_convs := (List.range (ch_list.length - 1)).map
        (fun i => (ch_list.getD i 0, ch_list.getD (i + 1) 0, num_edge_type))
      rgcn_readout := (ch_list.getLastD 0, out_channels)
      input_type := input_type
      scale_adj := scale_adj }
  if input_type = "int" then
    Except.ok (mkConfig (EmbedSpec.embedAtomID (ch_list.getD 0 0) n_atom_types))
  else if input_type = "float" then
    Except.ok (mkConfig (EmbedSpec.graphLinearFloat (ch_list.getD 0 0)))
  else
    Except.error ("[ERROR] Unexpected value input_type=" ++ input_type)

/-- Claim C7: with the default `ch_list=None` (hence `[16, 128, 64]`) and
`input_type='int'`, `RelGCN.__init__` builds exactly two `RelGCNUpdate` layers,
`RelGCNUpdate(16, 128)` and `RelGCNUpdate(128, 64)`, followed by one
`RelGCNReadout(64, out_channels)` — `len(ch_list) - 1 = 2` update layers, three
layers in total. -/
theorem relGCN_init_default_architecture (out_channels num_edge_type
    n_atom_types : ℕ) (scale_adj : Bool) :
    RelGCN_init out_channels num_edge_type none n_atom_types "int" scale_adj =
      Except.ok
        { embed := EmbedSpec.embedAtomID 16 n_atom_types
          rgcn_convs := [(16, 128, num_edge_type), (128, 64, num_edge_type)]
          rgcn_readout := (64, out_channels)
          input_type := "int"
          scale_adj := scale_adj } ∧
    (RelGCN_init out_channels num_edge_type none n_atom_types "int"
        scale_adj).map (fun cfg => cfg.rgcn_convs.length) = Except.ok 2 ∧
    (RelGCN_init out_channels num_edge_type none n_atom_types "int"
        scale_adj).map (fun cfg => cfg.rgcn_convs.length + 1) = Except.ok 3 := by
  refine ⟨?_, ?_, ?_⟩ <;> simp [RelGCN_init, List.range_succ, Except.map]

/-- Claim C9: `RelGCN.__init__` raises `ValueError` if and only if `input_type`
is neither `'int'` nor `'float'`; with `input_type='int'` the embedding is
`EmbedAtomID(out_size=ch_list[0], in_size=n_atom_types)`, and with
`input_type='float'` it is `GraphLinear(None, ch_list[0])`. -/
theorem relGCN_init_valueerror (out_channels num_edge_type n_atom_types : ℕ)
    (ch_list_opt : Option (List ℕ)) (input_type : String) (scale_adj : Bool) :
    ((∃ msg, RelGCN_init out_channels num_edge_type ch_list_opt n_atom_types
        input_type scale_adj = Except.error msg) ↔
      (input_type ≠ "int" ∧ input_type ≠ "float")) ∧
    (input_type = "int" →
      (RelGCN_init out_channels num_edge_type ch_list_opt n_atom_types
        input_type scale_adj).map RelGCNConfig.embed =
        Except.ok (EmbedSpec.embedAtomID
          ((ch_list_opt.getD [16, 128, 64]).getD 0 0) n_atom_types)) ∧
    (input_type = "float" →
      (RelGCN_init out_channels num_edge_type ch_list_opt n_atom_types
        input_type scale_adj).map RelGCNConfig.embed =
        Except.ok (EmbedSpec.graphLinearFloat
          ((ch_list_opt.getD [16, 128, 64]).getD 0 0))) := by
  refine ⟨⟨fun hmsg => ?_, fun hne => ?_⟩, fun hint => ?_, fun hfloat => ?_⟩
  · obtain ⟨msg, hmsg⟩ := hmsg
    by_contra hcon
    rw [not_and_or, not_not, not_not] at hcon
    rcases hcon with hint | hfloat
    · simp [RelGCN_init, hint] at hmsg
    · rcases eq_or_ne input_type "int" with hint | hint
      · simp [RelGCN_init, hint] at hmsg
      · simp [RelGCN_init, hint, hfloat] at hmsg
  · exact ⟨"[ERROR] Unexpected value input_type=" ++ input_type,
      by simp [RelGCN_init, hne.1, hne.2]⟩
  · simp [RelGCN_init, hint, Except.map]
  · rcases eq_or_ne input_type "int" with hint | hint
    · rw [hint] at hfloat; exact absurd hfloat (by decide)
    · simp [RelGCN_init, hint, hfloat, Except.map]

/-- Witness for C9: at the concrete call
`RelGCN_init 64 4 none 117 "int" false` no error is raised and the embedding is
`EmbedAtomID(16, 117)`. -/
theorem relGCN_init_valueerror_witness :
    (RelGCN_init 64 4 none 117 "int" false).map RelGCNConfig.embed =
      Except.ok (EmbedSpec.embedAtomID 16 117) :=
  (relGCN_init_valueerror 64 4 117 none "int" false).2.1 rfl

/-- Molecular graph as delivered by the cheminformatics toolkit: the list of
atomic numbers of the atoms (in molecule order) and the list of bonded
atom-index pairs. -/
structure Molecule where
  atoms : List ℕ
  bonds : List (ℕ × ℕ)
deriving DecidableEq

/-- Modelled from the spec: the atom-index half of `NFPPreprocessor.get_input_features`,
whose code is not among the two source files (only its unit tests are).  The
spec calls the preprocessor "a preprocessor that converts a molecule into an
atom-index array and an adjacency matrix", and the unit test pins the array to
the atoms' atomic numbers as a one-dimensional `int32` array (`int32` values
are modelled as `ℤ`). -/
def construct_atomic_number_array (mol : Molecule) : List ℤ :=
  mol.atoms.map (fun a => Int.ofNat a)

/-- Modelled from the spec: the adjacency half of `NFPPreprocessor.get_input_features`.
The unit test pins it to the symmetric 0/1 connectivity matrix of the molecule
with ones added on the diagonal (self-loops), as a two-dimensional square
`float32` array (`float32` values are modelled as `ℚ`), given here as the list
of its rows. -/
def construct_adj_matrix (mol : Molecule) : List (List ℚ) :=
  (List.range mol.atoms.length).map (fun i =>
    (List.range mol.atoms.length).map (fun j =>
      if i = j ∨ (i, j) ∈ mol.bonds ∨ (j, i) ∈ mol.bonds then (1 : ℚ) else 0))

/-- Modelled from the spec: `NFPPreprocessor.get_input_features(mol)` returns
exactly the pair of the atom-index array and the adjacency matrix. -/
def get_input_features (mol : Molecule) : List ℤ × List (List ℚ) :=
  (construct_atomic_number_array mol, construct_adj_matrix mol)

/-- Claim C5: for every molecule, `NFPPreprocessor.get_input_features` returns a
pair (recorded by its result type) whose first component is a one-dimensional
integer array with one atom index per atom, and whose second component is a
two-dimensional square rational matrix with one row and one column per atom. -/
theorem get_input_features_shapes (mol : Molecule) :
    (get_input_features mol).1.length = mol.atoms.length ∧
    (get_input_features mol).2.length = mol.atoms.length ∧
    ((get_input_features mol).2.all
      (fun row => row.length == mol.atoms.length)) = true := by
  refine ⟨?_, ?_, ?_⟩
  · show (mol.atoms.map fun a => Int.ofNat a).length = mol.atoms.length
    rw [List.length_map]
  · show ((List.range mol.atoms.length).map _).length = mol.atoms.length
    rw [List.length_map, List.length_range]
  · simp only [get_input_features, construct_adj_matrix, List.all_eq_true]
    intro row hrow
    simp only [List.mem_map, List.mem_range] at hrow
    obtain ⟨i, _, hi⟩ := hrow
    simp [← hi]

/-- The molecule the RDKit call `Chem.MolFromSmiles('CN=C=O')` produces in the
unit test: heavy atoms C, N, C, O (atomic numbers 6, 7, 6, 8) with bonds
between consecutive atoms 0-1, 1-2 and 2-3. -/
def mol_CNCO : Molecule :=
  { atoms := [6, 7, 6, 8], bonds := [(0, 1), (1, 2), (2, 3)] }

/-- Claim C6: on the molecule parsed from `'CN=C=O'`,
`NFPPreprocessor.get_input_features` returns the atom-index array
`[6, 7, 6, 8]` and the expected symmetric tridiagonal 4x4 adjacency matrix with
ones on the diagonal and at bonded pairs. -/
theorem get_input_features_CNCO :
    get_input_features mol_CNCO =
      ([6, 7, 6, 8],
        [[1, 1, 0, 0], [1, 1, 1, 0], [0, 1, 1, 1], [0, 0, 1, 1]]) := by
  decide
